import Mathlib

/-!
# bosh-agent platform provider: a shallow embedding

The definitions below follow `platform/provider.go` (`NewProvider`, `provider.Get`).
Go values are modelled as follows.

* Collaborators built by constructors of other packages are records of the arguments
  the constructor receives, in the order of the call site.
* `time.Duration` is a natural number of nanoseconds.
* A Go map literal with distinct keys is an association list, looked up by key.
* A Go `(Platform, error)` pair is a pair of options, `none` standing for `nil`.
* The goroutine `go statsCollector.StartCollecting(...)` has no effect on the value
  returned by `NewProvider` and is left out of the embedding.
-/

set_option autoImplicit false

namespace Platform

/-! ## Durations -/

/-- Nanoseconds, as in Go's `time.Duration`. -/
abbrev Duration := Nat

def Nanosecond : Duration := 1
def Millisecond : Duration := 1000000 * Nanosecond
def Second : Duration := 1000 * Millisecond

/-! ## Constants of `provider.go` -/

def ArpIterations : Nat := 20
def ArpIterationDelay : Duration := 5 * Second
def ArpInterfaceCheckDelay : Duration := 100 * Millisecond
def SigarStatsCollectionInterval : Duration := 10 * Second

/-! ## Collaborators -/

/-- Handle of a `boshlog.Logger` passed in by the caller. -/
structure Logger where
  id : Nat
  deriving DecidableEq, Repr

/-- Handle of a `boshdirs.Provider`; `SettingsDir()` is its only method used here. -/
structure DirProvider where
  settingsDir : String
  deriving DecidableEq, Repr

/-- Handle of a `boshstats.Collector` passed in by the caller. -/
structure StatsCollector where
  id : Nat
  deriving DecidableEq, Repr

/-- Modelled from the spec: the declaration of `LinuxOptions` is not part of the sources;
the two fields are the ones `NewProvider` reads (`DevicePathResolutionType`,
`BindMountPersistentDisk`), as listed for `PlatformOptions` in the data model. -/
structure LinuxOptions where
  DevicePathResolutionType : String
  BindMountPersistentDisk : Bool
  deriving DecidableEq, Repr

structure Options where
  Linux : LinuxOptions
  deriving DecidableEq, Repr

/-- Value of `boshsys.NewExecCmdRunner(logger)`. -/
structure CmdRunner where
  logger : Logger
  deriving DecidableEq, Repr

/-- Value of `boshsys.NewOsFileSystem(logger)`. -/
structure FileSystem where
  logger : Logger
  deriving DecidableEq, Repr

/-- Value of `boshdisk.NewLinuxDiskManager(logger, runner, fs, bindMount)`. -/
structure LinuxDiskManager where
  logger : Logger
  runner : CmdRunner
  fs : FileSystem
  bindMount : Bool
  deriving DecidableEq, Repr

/-- Value of `boshudev.NewConcreteUdevDevice(runner, logger)`. -/
structure UdevDevice where
  runner : CmdRunner
  logger : Logger
  deriving DecidableEq, Repr

/-- Value of `boshcdrom.NewLinuxCdrom(devicePath, udev, runner)`. -/
structure LinuxCdrom where
  devicePath : String
  udev : UdevDevice
  runner : CmdRunner
  deriving DecidableEq, Repr

/-- Value of `boshcdrom.NewCdUtil(settingsDir, fs, cdrom, logger)`. -/
structure CdUtil where
  settingsDir : String
  fs : FileSystem
  cdrom : LinuxCdrom
  logger : Logger
  deriving DecidableEq, Repr

/-- Value of `boshcmd.NewTarballCompressor(runner, fs)`. -/
structure Compressor where
  runner : CmdRunner
  fs : FileSystem
  deriving DecidableEq, Repr

/-- Value of `boshcmd.NewCpCopier(runner, fs, logger)`. -/
structure Copier where
  runner : CmdRunner
  fs : FileSystem
  logger : Logger
  deriving DecidableEq, Repr

/-- Value of `boshvitals.NewService(statsCollector, dirProvider)`. -/
structure VitalsService where
  statsCollector : StatsCollector
  dirProvider : DirProvider
  deriving DecidableEq, Repr

/-- Value of `boship.NewResolver(boship.NetworkInterfaceToAddrsFunc)`. -/
inductive IPResolver where
  | networkInterfaceToAddrs
  deriving DecidableEq, Repr

/-- Value of `bosharp.NewArping(runner, fs, logger, iterations, iterationDelay,
interfaceCheckDelay)`. -/
structure Arping where
  runner : CmdRunner
  fs : FileSystem
  logger : Logger
  iterations : Nat
  iterationDelay : Duration
  interfaceCheckDelay : Duration
  deriving DecidableEq, Repr

/-- Value of `boshnet.NewInterfaceConfigurationCreator(logger)`. -/
structure InterfaceConfigurationCreator where
  logger : Logger
  deriving DecidableEq, Repr

/-- The two net managers wired by `NewProvider`: `boshnet.NewCentosNetManager` and
`boshnet.NewUbuntuNetManager`, each applied to the same six arguments. -/
inductive NetManager where
  | centos (fs : FileSystem) (runner : CmdRunner) (ipResolver : IPResolver)
      (creator : InterfaceConfigurationCreator) (arping : Arping) (logger : Logger)
  | ubuntu (fs : FileSystem) (runner : CmdRunner) (ipResolver : IPResolver)
      (creator : InterfaceConfigurationCreator) (arping : Arping) (logger : Logger)
  deriving DecidableEq, Repr

/-- Value of `boshnet.NewCmdRoutesSearcher(runner)`. -/
structure RoutesSearcher where
  runner : CmdRunner
  deriving DecidableEq, Repr

/-- Value of `boshnet.NewDefaultNetworkResolver(routesSearcher, ipResolver)`. -/
structure DefaultNetworkResolver where
  routesSearcher : RoutesSearcher
  ipResolver : IPResolver
  deriving DecidableEq, Repr

/-- Value of `NewMonitRetryable(runner)`. -/
structure MonitRetryable where
  runner : CmdRunner
  deriving DecidableEq, Repr

/-- Value of `boshretry.NewAttemptRetryStrategy(maxAttempts, delay, retryable, logger)`. -/
structure AttemptRetryStrategy where
  maxAttempts : Nat
  delay : Duration
  retryable : MonitRetryable
  logger : Logger
  deriving DecidableEq, Repr

/-- Value of `devicepathresolver.NewIDDevicePathResolver(timeout, udev, fs)`. -/
structure IDDevicePathResolver where
  diskWaitTimeout : Duration
  udev : UdevDevice
  fs : FileSystem
  deriving DecidableEq, Repr

/-- Value of `devicepathresolver.NewMappedDevicePathResolver(timeout, fs)`. -/
structure MappedDevicePathResolver where
  diskWaitTimeout : Duration
  fs : FileSystem
  deriving DecidableEq, Repr

/-- The three values the `switch` of `NewProvider` can assign to `devicePathResolver`:
`NewVirtioDevicePathResolver(id, mapped, logger)`, `NewScsiDevicePathResolver(timeout, fs)`
and `NewIdentityDevicePathResolver()`. -/
inductive DevicePathResolver where
  | virtio (idResolver : IDDevicePathResolver) (mappedResolver : MappedDevicePathResolver)
      (logger : Logger)
  | scsi (diskWaitTimeout : Duration) (fs : FileSystem)
  | identity
  deriving DecidableEq, Repr

/-- Modelled from the spec: `NewLinuxPlatform` is declared outside the sources; its value
is the record of the sixteen arguments of the call in `NewProvider` (the platform holds
references to its injected collaborators, which are never swapped). -/
structure LinuxPlatform where
  fs : FileSystem
  runner : CmdRunner
  statsCollector : StatsCollector
  compressor : Compressor
  copier : Copier
  dirProvider : DirProvider
  vitalsService : VitalsService
  cdutil : CdUtil
  diskManager : LinuxDiskManager
  netManager : NetManager
  monitRetryStrategy : AttemptRetryStrategy
  devicePathResolver : DevicePathResolver
  diskScanDuration : Duration
  options : LinuxOptions
  logger : Logger
  defaultNetworkResolver : DefaultNetworkResolver
  deriving DecidableEq, Repr

/-- Modelled from the spec: `NewDummyPlatform` is declared outside the sources; its value
is the record of the six arguments of the call in `NewProvider`. -/
structure DummyPlatform where
  statsCollector : StatsCollector
  fs : FileSystem
  runner : CmdRunner
  dirProvider : DirProvider
  devicePathResolver : DevicePathResolver
  logger : Logger
  deriving DecidableEq, Repr

end Platform

/-- A non-nil value of the Go interface `Platform`: one of the two kinds of platform
that `NewProvider` constructs. -/
inductive Platform where
  | linux (p : Platform.LinuxPlatform)
  | dummy (p : Platform.DummyPlatform)
  deriving DecidableEq, Repr

namespace Platform

/-- The device path resolver a platform was constructed with. -/
def devicePathResolver : Platform → DevicePathResolver
  | .linux p => p.devicePathResolver
  | .dummy p => p.devicePathResolver

/-! ## Errors -/

/-- A Go `error` value created by `bosherror.Errorf`: its message. -/
structure GoError where
  msg : String
  deriving DecidableEq, Repr

/-- Expansion of the `%s` verbs of a format, left to right, as `fmt.Sprintf` does for
string arguments. -/
def sprintfChars : List Char → List String → List Char
  | '%' :: 's' :: rest, a :: args => a.data ++ sprintfChars rest args
  | c :: rest, args => c :: sprintfChars rest args
  | [], _ => []

/-- The function `bosherror.Errorf(fmt, args...)`, for string arguments. -/
def Errorf (fmt : String) (args : List String) : GoError :=
  ⟨String.mk (sprintfChars fmt.data args)⟩

/-! ## The provider -/

/-- The struct `provider`: the field `platforms map[string]Platform`. -/
structure provider where
  platforms : List (String × Platform)
  deriving Repr

/-- The selection made by the `switch options.Linux.DevicePathResolutionType` of
`NewProvider`. -/
def selectDevicePathResolver (logger : Logger) (runner : CmdRunner) (fs : FileSystem)
    (resolutionType : String) : DevicePathResolver :=
  if resolutionType = "virtio" then
    let udev : UdevDevice := ⟨runner, logger⟩
    let idDevicePathResolver : IDDevicePathResolver := ⟨500 * Millisecond, udev, fs⟩
    let mappedDevicePathResolver : MappedDevicePathResolver := ⟨500 * Millisecond, fs⟩
    .virtio idDevicePathResolver mappedDevicePathResolver logger
  else if resolutionType = "scsi" then
    .scsi (500 * Millisecond) fs
  else
    .identity

/-- The function `NewProvider(logger, dirProvider, statsCollector, options)`. -/
def NewProvider (logger : Logger) (dirProvider : DirProvider)
    (statsCollector : StatsCollector) (options : Options) : provider :=
  let runner : CmdRunner := ⟨logger⟩
  let fs : FileSystem := ⟨logger⟩
  let linuxDiskManager : LinuxDiskManager :=
    ⟨logger, runner, fs, options.Linux.BindMountPersistentDisk⟩
  let udev : UdevDevice := ⟨runner, logger⟩
  let linuxCdrom : LinuxCdrom := ⟨"/dev/sr0", udev, runner⟩
  let linuxCdutil : CdUtil := ⟨dirProvider.settingsDir, fs, linuxCdrom, logger⟩
  let compressor : Compressor := ⟨runner, fs⟩
  let copier : Copier := ⟨runner, fs, logger⟩
  let vitalsService : VitalsService := ⟨statsCollector, dirProvider⟩
  let ipResolver : IPResolver := .networkInterfaceToAddrs
  let arping : Arping :=
    ⟨runner, fs, logger, ArpIterations, ArpIterationDelay, ArpInterfaceCheckDelay⟩
  let interfaceConfigurationCreator : InterfaceConfigurationCreator := ⟨logger⟩
  let centosNetManager : NetManager :=
    .centos fs runner ipResolver interfaceConfigurationCreator arping logger
  let ubuntuNetManager : NetManager :=
    .ubuntu fs runner ipResolver interfaceConfigurationCreator arping logger
  let routesSearcher : RoutesSearcher := ⟨runner⟩
  let linuxDefaultNetworkResolver : DefaultNetworkResolver := ⟨routesSearcher, ipResolver⟩
  let monitRetryable : MonitRetryable := ⟨runner⟩
  let monitRetryStrategy : AttemptRetryStrategy := ⟨10, 1 * Second, monitRetryable, logger⟩
  let devicePathResolver : DevicePathResolver :=
    selectDevicePathResolver logger runner fs options.Linux.DevicePathResolutionType
  let centos : Platform := .linux
    ⟨fs, runner, statsCollector, compressor, copier, dirProvider, vitalsService,
      linuxCdutil, linuxDiskManager, centosNetManager, monitRetryStrategy,
      devicePathResolver, 500 * Millisecond, options.Linux, logger,
      linuxDefaultNetworkResolver⟩
  let ubuntu : Platform := .linux
    ⟨fs, runner, statsCollector, compressor, copier, dirProvider, vitalsService,
      linuxCdutil, linuxDiskManager, ubuntuNetManager, monitRetryStrategy,
      devicePathResolver, 500 * Millisecond, options.Linux, logger,
      linuxDefaultNetworkResolver⟩
  { platforms :=
      [ ("ubuntu", ubuntu),
        ("centos", centos),
        ("dummy", .dummy ⟨statsCollector, fs, runner, dirProvider, devicePathResolver,
          logger⟩) ] }

/-- The method `provider.Get(name)`: the pair `(Platform, error)`, `none` for `nil`. -/
def provider.Get (p : provider) (name : String) : Option Platform × Option GoError :=
  match p.platforms.lookup name with
  | none => (none, some (Errorf "Platform %s could not be found" [name]))
  | some plat => (some plat, none)

/-- The keys of the map `platforms`. -/
def provider.names (p : provider) : List String :=
  p.platforms.map Prod.fst

/-- The device path resolvers of the registered platforms, in the order of the map
literal. -/
def provider.resolvers (p : provider) : List DevicePathResolver :=
  p.platforms.map (fun kv => kv.2.devicePathResolver)

/-! ## Retry strategy -/

/-- One observable step of a bounded-retry execution. -/
inductive RetryEvent where
  | attempt
  | sleep (d : Duration)
  deriving DecidableEq, Repr

/-- The error a bounded-retry execution returns: an error reported by the retryable, or
the generic one for an exhausted budget. -/
inductive RetryError (ε : Type) where
  | underlying (e : ε)
  | attemptsExhausted
  deriving DecidableEq, Repr

/-- The error an exhausted budget returns when the last attempt reported `err`. -/
def exhaustionError {ε : Type} (err : Option ε) : RetryError ε :=
  match err with
  | some e => .underlying e
  | none => .attemptsExhausted

/-- Modelled from the spec: the retry engine (`boshretry`, section 4.3) is not part of the
sources. The retryable is a step `σ → (shouldRetry, err) × σ` on the state of its
environment. After each call: `shouldRetry = false` stops and returns `err` (nil on
success, the error otherwise); `shouldRetry = true` sleeps `delay` and tries again unless
the attempts are exhausted, in which case the last error is returned, or the generic
error when the last call reported none. The result is the returned error, the events in
the order they happen, and the final state. No attempt is made when the budget is zero,
a case the spec leaves open; the generic error is returned then. -/
def retryLoop {σ ε : Type} (delay : Duration) (retryable : σ → (Bool × Option ε) × σ) :
    Nat → σ → Option (RetryError ε) × List RetryEvent × σ
  | 0, st => (some .attemptsExhausted, [], st)
  | n + 1, st =>
    match retryable st with
    | ((false, err), st') => (err.map .underlying, [.attempt], st')
    | ((true, err), st') =>
      if n = 0 then
        (some (exhaustionError err), [.attempt], st')
      else
        match retryLoop delay retryable n st' with
        | (r, evs, stEnd) => (r, .attempt :: .sleep delay :: evs, stEnd)

/-- Modelled from the spec: `Run` of a strategy built by `NewAttemptRetryStrategy`, with
the behaviour of its retryable supplied as a step function. -/
def AttemptRetryStrategy.Run {σ ε : Type} (s : AttemptRetryStrategy)
    (retryable : σ → (Bool × Option ε) × σ) (st : σ) :
    Option (RetryError ε) × List RetryEvent × σ :=
  retryLoop s.delay retryable s.maxAttempts st

/-- The state of the environment after `k` invocations of the retryable. -/
def stateAfter {σ ε : Type} (retryable : σ → (Bool × Option ε) × σ) (k : Nat) (st : σ) : σ :=
  (fun x => (retryable x).2)^[k] st

/-- Number of invocations of the retryable in a list of events. -/
def countAttempts (evs : List RetryEvent) : Nat :=
  (evs.filter (fun e => e = .attempt)).length

/-- The delays slept in a list of events, in order. -/
def sleptDelays : List RetryEvent → List Duration
  | [] => []
  | .attempt :: evs => sleptDelays evs
  | .sleep d :: evs => d :: sleptDelays evs

/-- The monit readiness strategy held by a platform, if it has one. -/
def monitRetryStrategy? : Platform → Option AttemptRetryStrategy
  | .linux p => some p.monitRetryStrategy
  | .dummy _ => none

/-- The monit readiness strategies wired into the registered platforms. -/
def provider.monitRetryStrategies (p : provider) : List AttemptRetryStrategy :=
  p.platforms.filterMap (fun kv => monitRetryStrategy? kv.2)

/-! ## Ephemeral disk: swap sizing -/

/-- Modelled from the spec: the swap-sizing policy (section 4.2 step 3) of
`calculateEphemeralDiskPartitionSizes`, which is declared outside the sources. `D` is the
disk size and `M` the physical memory, both in blocks. If `D > 2*M` the swap size is `M`,
otherwise it is `D / 2`; the data size is `D - swapSize` in both branches. The result is
`(swapSize, linuxSize)`. -/
def swapSizingPolicy (diskSizeInBlocks totalMemInBlocks : Nat) : Nat × Nat :=
  let swapSize :=
    if diskSizeInBlocks > 2 * totalMemInBlocks then totalMemInBlocks
    else diskSizeInBlocks / 2
  (swapSize, diskSizeInBlocks - swapSize)

/-- An entry of a partition plan: `{type: "swap"|"linux", sizeInBlocks}`. -/
structure Partition where
  type : String
  sizeInBlocks : Nat
  deriving DecidableEq, Repr

/-- Modelled from the spec: the partition plan of the ephemeral disk, always the two
entries (swap, data) in that order. -/
def partitionPlan (sizes : Nat × Nat) : List Partition :=
  [⟨"swap", sizes.1⟩, ⟨"linux", sizes.2⟩]

/-! ## Device path resolution -/

/-- Modelled from the spec: the parameters of the bounded poll of `getRealDevicePath`
(declared outside the sources). `candidates ref` lists the device nodes derived from the
reference, in the fixed order in which they are tried; `maxPolls` is the number of poll
intervals that fit before the deadline. -/
structure ResolverConfig where
  candidates : String → List String
  maxPolls : Nat

/-- The resolution exhausted its polling budget for the reference. -/
structure DeviceNotFoundError where
  ref : String
  deriving DecidableEq, Repr

/-- One check of the candidates, in order, against the device namespace. -/
def findPossibleDevice (candidates : List String) (fileExists : String → Bool) :
    Option String :=
  candidates.find? fileExists

/-- The bounded poll: `fileExists k` is the device namespace as seen by the `k`-th check;
`remaining` is the number of further checks allowed after this one. -/
def pollDevice (candidates : List String) (fileExists : Nat → String → Bool) :
    Nat → Nat → Option String
  | 0, k => findPossibleDevice candidates (fileExists k)
  | remaining + 1, k =>
    match findPossibleDevice candidates (fileExists k) with
    | some realPath => some realPath
    | none => pollDevice candidates fileExists remaining (k + 1)

/-- Modelled from the spec: `getRealDevicePath(ref)` (declared outside the sources;
section 4.1): a bounded poll for a candidate node of the reference, which returns the
first candidate found by the first check that finds one, and `DeviceNotFoundError` when
no check within the deadline finds any. -/
def getRealDevicePath (cfg : ResolverConfig) (fileExists : Nat → String → Bool)
    (ref : String) : Except DeviceNotFoundError String :=
  match pollDevice (cfg.candidates ref) fileExists cfg.maxPolls 0 with
  | some realPath => .ok realPath
  | none => .error ⟨ref⟩

/-! ## Ephemeral disk: setup -/

/-- Result of the command-execution collaborator `run(argv)`. -/
structure CmdResult where
  stdout : String
  stderr : String
  err : Option GoError
  deriving DecidableEq, Repr

/-- The external collaborators of a disk setup, as the engine consumes them (section 6):
the device namespace at each check, command execution, physical memory in blocks, the
mount table, the partitioner and directory creation. -/
structure World where
  fileExists : Nat → String → Bool
  run : List String → CmdResult
  totalMemInBlocks : Nat
  isMounted : String → String → Bool
  partition : String → List Partition → Option GoError
  mkdirAll : String → Nat → Option GoError

/-- What a disk setup asked of its collaborators, each list in the order of the calls. -/
structure Effects where
  runCommands : List (List String)
  partitionCalls : List (String × List Partition)
  mkdirs : List (String × Nat)
  deriving DecidableEq, Repr

/-- The step a failed disk setup is tagged with. -/
inductive SetupError where
  | resolve (e : DeviceNotFoundError)
  | sizeProbe (out : CmdResult)
  | partition (e : GoError)
  | format (e : GoError)
  | mount (e : GoError)
  | mkdir (e : GoError)
  deriving DecidableEq, Repr

/-- Value of a decimal digit. -/
def digitValue? (c : Char) : Option Nat :=
  if '0' ≤ c ∧ c ≤ '9' then some (c.toNat - '0'.toNat) else none

/-- Decimal value of a list of digits, most significant first, after `acc`. -/
def parseDigits : List Char → Nat → Option Nat
  | [], acc => some acc
  | c :: cs, acc =>
    match digitValue? c with
    | some d => parseDigits cs (10 * acc + d)
    | none => none

/-- The size printed by the size probe: a non-empty decimal numeral that fits `uint64`,
with surrounding white space dropped. -/
def parseBlockCount (stdout : String) : Option Nat :=
  let body := ((stdout.data.dropWhile Char.isWhitespace).reverse.dropWhile
    Char.isWhitespace).reverse
  match body with
  | [] => none
  | _ :: _ =>
    match parseDigits body 0 with
    | some n => if n < 2 ^ 64 then some n else none
    | none => none

/-- Modelled from the spec: `calculateEphemeralDiskPartitionSizes(devicePath)` (declared
outside the sources; called by `testUbuntuCalculateEphemeralDiskPartitionSizes`): probe the
size of the device with `sfdisk -s`, then apply the swap-sizing policy to it and to the
physical memory. A failed or unreadable probe is the error, with the probe's result. -/
def calculateEphemeralDiskPartitionSizes (w : World) (devicePath : String) :
    Except CmdResult (Nat × Nat) :=
  let probe := w.run ["sfdisk", "-s", devicePath]
  match probe.err, parseBlockCount probe.stdout with
  | some _, _ => .error probe
  | none, none => .error probe
  | none, some diskSizeInBlocks =>
    .ok (swapSizingPolicy diskSizeInBlocks w.totalMemInBlocks)

/-- Mode `0750` of the directories a disk setup creates. -/
def dirMode : Nat := 0o750

/-- Modelled from the spec: `SetupEphemeralDiskWithPath(ref, mountPoint)` (declared outside
the sources), after the algorithm of section 4.2, with the command lines that
`TestUbuntuSetupEphemeralDiskWithPath` expects. The steps are strictly sequential and the
first failure ends the operation with the error of its step:
resolve the reference; probe the size and compute the plan; return success if the data
partition is already mounted at the mount point; otherwise partition the device, `mkswap`
partition 1, `mke2fs` partition 2, `swapon` partition 1, create the mount point and `mount`
partition 2 there; create `sys/log` and `sys/run` under the mount point. -/
def SetupEphemeralDiskWithPath (cfg : ResolverConfig) (w : World)
    (ref mountPoint : String) : Option SetupError × Effects :=
  match getRealDevicePath cfg w.fileExists ref with
  | .error e => (some (.resolve e), ⟨[], [], []⟩)
  | .ok realPath =>
    let swapPath := realPath ++ "1"
    let dataPath := realPath ++ "2"
    let probeCmd := ["sfdisk", "-s", realPath]
    match calculateEphemeralDiskPartitionSizes w realPath with
    | .error probe => (some (.sizeProbe probe), ⟨[probeCmd], [], []⟩)
    | .ok sizes =>
      let plan := partitionPlan sizes
      if w.isMounted dataPath mountPoint then
        (none, ⟨[probeCmd], [], []⟩)
      else
        match w.partition realPath plan with
        | some e => (some (.partition e), ⟨[probeCmd], [(realPath, plan)], []⟩)
        | none =>
          let mkswapCmd := ["mkswap", swapPath]
          match (w.run mkswapCmd).err with
          | some e =>
            (some (.format e), ⟨[probeCmd, mkswapCmd], [(realPath, plan)], []⟩)
          | none =>
            let mke2fsCmd := ["mke2fs", "-t", "ext4", "-j", dataPath]
            match (w.run mke2fsCmd).err with
            | some e =>
              (some (.format e),
                ⟨[probeCmd, mkswapCmd, mke2fsCmd], [(realPath, plan)], []⟩)
            | none =>
              let swaponCmd := ["swapon", swapPath]
              match (w.run swaponCmd).err with
              | some e =>
                (some (.mount e),
                  ⟨[probeCmd, mkswapCmd, mke2fsCmd, swaponCmd], [(realPath, plan)], []⟩)
              | none =>
                match w.mkdirAll mountPoint dirMode with
                | some e =>
                  (some (.mkdir e),
                    ⟨[probeCmd, mkswapCmd, mke2fsCmd, swaponCmd], [(realPath, plan)],
                      [(mountPoint, dirMode)]⟩)
                | none =>
                  let mountCmd := ["mount", dataPath, mountPoint]
                  let cmds := [probeCmd, mkswapCmd, mke2fsCmd, swaponCmd, mountCmd]
                  match (w.run mountCmd).err with
                  | some e =>
                    (some (.mount e), ⟨cmds, [(realPath, plan)], [(mountPoint, dirMode)]⟩)
                  | none =>
                    let logDir := mountPoint ++ "/sys/log"
                    let runDir := mountPoint ++ "/sys/run"
                    match w.mkdirAll logDir dirMode with
                    | some e =>
                      (some (.mkdir e),
                        ⟨cmds, [(realPath, plan)],
                          [(mountPoint, dirMode), (logDir, dirMode)]⟩)
                    | none =>
                      match w.mkdirAll runDir dirMode with
                      | some e =>
                        (some (.mkdir e),
                          ⟨cmds, [(realPath, plan)],
                            [(mountPoint, dirMode), (logDir, dirMode), (runDir, dirMode)]⟩)
                      | none =>
                        (none,
                          ⟨cmds, [(realPath, plan)],
                            [(mountPoint, dirMode), (logDir, dirMode), (runDir, dirMode)]⟩)

/-- The fake collaborators of the tests: only `device` exists, the size probe of `device`
prints `diskSize`, the memory is `totalMem` blocks, nothing is mounted and no collaborator
fails. -/
def fakeWorld (device diskSize : String) (totalMem : Nat) : World where
  fileExists := fun _ path => path == device
  run := fun argv =>
    if argv = ["sfdisk", "-s", device] then ⟨diskSize, "", none⟩ else ⟨"", "", none⟩
  totalMemInBlocks := totalMem
  isMounted := fun _ _ => false
  partition := fun _ _ => none
  mkdirAll := fun _ _ => none

/-- A candidate table in which a reference `/dev/sdX` is tried as `/dev/xvdX`, then
`/dev/vdX`, the order `TestUbuntuGetRealDevicePathWithMultiplePossibleDevices` observes
for `/dev/sda`; other references have no candidates. -/
def testCandidates (ref : String) : List String :=
  match ref.data with
  | '/' :: 'd' :: 'e' :: 'v' :: '/' :: 's' :: 'd' :: rest =>
    [String.mk ("/dev/xvd".data ++ rest), String.mk ("/dev/vd".data ++ rest)]
  | _ => []

/-- A resolver configuration over `testCandidates` with a budget of ten checks. -/
def testResolverConfig : ResolverConfig := ⟨testCandidates, 9⟩

/-! ## Provider lookup -/

section ProviderLookup

variable (logger : Logger) (dirProvider : DirProvider) (statsCollector : StatsCollector)
  (options : Options)

theorem names_NewProvider :
    (NewProvider logger dirProvider statsCollector options).names
      = ["ubuntu", "centos", "dummy"] := rfl

theorem lookup_eq_none_of_not_mem_names (p : provider) (name : String)
    (h : name ∉ p.names) : p.platforms.lookup name = none := by
  rw [List.lookup_eq_none_iff]
  intro kv hkv
  simp only [bne_iff_ne, ne_eq]
  intro hName
  apply h
  rw [hName]
  exact List.mem_map_of_mem Prod.fst hkv

theorem Errorf_platform_not_found (name : String) :
    Errorf "Platform %s could not be found" [name]
      = ⟨"Platform " ++ name ++ " could not be found"⟩ := by
  simp only [Errorf, sprintfChars]
  rfl

theorem Get_of_not_mem_names (p : provider) (name : String) (h : name ∉ p.names) :
    p.Get name = (none, some ⟨"Platform " ++ name ++ " could not be found"⟩) := by
  unfold provider.Get
  rw [lookup_eq_none_of_not_mem_names p name h, Errorf_platform_not_found]

theorem Get_of_lookup_eq_some (p : provider) (name : String) (plat : Platform)
    (h : p.platforms.lookup name = some plat) : p.Get name = (some plat, none) := by
  unfold provider.Get
  rw [h]

theorem lookup_isSome_of_mem_names (p : provider) (name : String) (h : name ∈ p.names) :
    ∃ plat, p.platforms.lookup name = some plat := by
  cases hl : p.platforms.lookup name with
  | some plat => exact ⟨plat, rfl⟩
  | none =>
    exfalso
    rw [List.lookup_eq_none_iff] at hl
    obtain ⟨kv, hkv, hEq⟩ := List.mem_map.mp h
    have hne := hl kv hkv
    simp only [bne_iff_ne, ne_eq] at hne
    exact hne hEq.symm

/-- C1: for every provider built by `NewProvider` and every name, `Get(name)` returns a nil
error together with the platform stored under that key exactly when the name is one of
"ubuntu", "centos", "dummy"; for every other name it returns a nil platform and a non-nil
error. -/
theorem Get_NewProvider_iff (name : String) :
    (name ∈ ["ubuntu", "centos", "dummy"] ↔
      ∃ plat, (NewProvider logger dirProvider statsCollector options).platforms.lookup name
          = some plat ∧
        (NewProvider logger dirProvider statsCollector options).Get name = (some plat, none))
    ∧ (name ∉ ["ubuntu", "centos", "dummy"] ↔
      ∃ e, (NewProvider logger dirProvider statsCollector options).Get name
        = (none, some e)) := by
  rw [← names_NewProvider logger dirProvider statsCollector options]
  generalize NewProvider logger dirProvider statsCollector options = p
  by_cases h : name ∈ p.names
  · obtain ⟨plat, hplat⟩ := lookup_isSome_of_mem_names p name h
    have hGet := Get_of_lookup_eq_some p name plat hplat
    refine ⟨⟨fun _ => ⟨plat, hplat, hGet⟩, fun _ => h⟩, ⟨fun hn => absurd h hn, ?_⟩⟩
    rintro ⟨e, he⟩
    rw [hGet] at he
    simp at he
  · have hGet := Get_of_not_mem_names p name h
    refine ⟨⟨fun hm => absurd hm h, ?_⟩, ⟨fun _ => ⟨_, hGet⟩, fun _ => h⟩⟩
    rintro ⟨plat, _, hplat⟩
    rw [hGet] at hplat
    simp at hplat

/-- C2: for every name that is not a key of the provider's platform map, the error
returned by `Get(name)` names the requested family: its message is
`"Platform " ++ name ++ " could not be found"`, which contains the name verbatim. -/
theorem Get_error_names_family (p : provider) (name : String) (h : name ∉ p.names) :
    ∃ e, p.Get name = (none, some e)
      ∧ e.msg = "Platform " ++ name ++ " could not be found"
      ∧ ∃ before after, e.msg = before ++ name ++ after :=
  ⟨_, Get_of_not_mem_names p name h, rfl, "Platform ", " could not be found", rfl⟩

/-- C2 at `Get("solaris")` on a provider built by `NewProvider`. -/
theorem Get_error_names_family_witness :
    "solaris" ∉ (NewProvider ⟨0⟩ ⟨"/var/vcap/bosh/settings"⟩ ⟨0⟩ ⟨⟨"", false⟩⟩).names
    ∧ ∃ e, (NewProvider ⟨0⟩ ⟨"/var/vcap/bosh/settings"⟩ ⟨0⟩ ⟨⟨"", false⟩⟩).Get "solaris"
          = (none, some e)
      ∧ e.msg = "Platform " ++ "solaris" ++ " could not be found"
      ∧ ∃ before after, e.msg = before ++ "solaris" ++ after :=
  ⟨by decide, Get_error_names_family _ "solaris" (by decide)⟩

/-- C3: the device path resolver chosen by `NewProvider` is a total function of
`options.Linux.DevicePathResolutionType`: exactly "virtio" selects the Virtio variant
(composed of an ID resolver and a Mapped resolver), exactly "scsi" selects the SCSI
variant, and every other string selects the Identity variant. -/
theorem resolver_variant_selection :
    (NewProvider logger dirProvider statsCollector options).resolvers
        = List.replicate 3
            (selectDevicePathResolver logger ⟨logger⟩ ⟨logger⟩
              options.Linux.DevicePathResolutionType)
    ∧ (options.Linux.DevicePathResolutionType = "virtio" ↔
        selectDevicePathResolver logger ⟨logger⟩ ⟨logger⟩
            options.Linux.DevicePathResolutionType
          = .virtio ⟨500 * Millisecond, ⟨⟨logger⟩, logger⟩, ⟨logger⟩⟩
              ⟨500 * Millisecond, ⟨logger⟩⟩ logger)
    ∧ (options.Linux.DevicePathResolutionType = "scsi" ↔
        selectDevicePathResolver logger ⟨logger⟩ ⟨logger⟩
            options.Linux.DevicePathResolutionType
          = .scsi (500 * Millisecond) ⟨logger⟩)
    ∧ ((options.Linux.DevicePathResolutionType ≠ "virtio"
          ∧ options.Linux.DevicePathResolutionType ≠ "scsi") ↔
        selectDevicePathResolver logger ⟨logger⟩ ⟨logger⟩
            options.Linux.DevicePathResolutionType
          = .identity) := by
  refine ⟨rfl, ?_⟩
  generalize options.Linux.DevicePathResolutionType = resolutionType
  have hne : ("scsi" : String) ≠ "virtio" := by decide
  by_cases hv : resolutionType = "virtio"
  · subst hv
    simp [selectDevicePathResolver]
  · by_cases hs : resolutionType = "scsi"
    · subst hs
      simp [selectDevicePathResolver]
    · simp [selectDevicePathResolver, hv, hs]

/-- C6: for every provider built by `NewProvider`, `Get("ubuntu")`, `Get("centos")` and
`Get("dummy")` each return a non-nil platform with a nil error, and the three platforms
are pairwise distinct. -/
theorem Get_distinct_platforms :
    ∃ ubuntu centos dummy,
      (NewProvider logger dirProvider statsCollector options).Get "ubuntu"
          = (some ubuntu, none)
      ∧ (NewProvider logger dirProvider statsCollector options).Get "centos"
          = (some centos, none)
      ∧ (NewProvider logger dirProvider statsCollector options).Get "dummy"
          = (some dummy, none)
      ∧ ubuntu ≠ centos ∧ ubuntu ≠ dummy ∧ centos ≠ dummy := by
  refine ⟨_, _, _, rfl, rfl, rfl, ?_, ?_, ?_⟩
  · intro h
    injection h with h
    injection h with _ _ _ _ _ _ _ _ _ hNet
    cases hNet
  · intro h
    cases h
  · intro h
    cases h

/-- C7: for every options value, the three platforms registered by `NewProvider` all hold
the same device path resolver, the one selected from
`options.Linux.DevicePathResolutionType`. -/
theorem platforms_share_resolver :
    ((NewProvider logger dirProvider statsCollector options).Get "ubuntu").1.map
          devicePathResolver
        = some (selectDevicePathResolver logger ⟨logger⟩ ⟨logger⟩
            options.Linux.DevicePathResolutionType)
    ∧ ((NewProvider logger dirProvider statsCollector options).Get "centos").1.map
          devicePathResolver
        = some (selectDevicePathResolver logger ⟨logger⟩ ⟨logger⟩
            options.Linux.DevicePathResolutionType)
    ∧ ((NewProvider logger dirProvider statsCollector options).Get "dummy").1.map
          devicePathResolver
        = some (selectDevicePathResolver logger ⟨logger⟩ ⟨logger⟩
            options.Linux.DevicePathResolutionType)
    ∧ (NewProvider logger dirProvider statsCollector options).names
        = ["ubuntu", "centos", "dummy"] :=
  ⟨rfl, rfl, rfl, rfl⟩

end ProviderLookup

/-! ## Retry strategy -/

section Retry

variable {σ ε : Type}

theorem stateAfter_succ (retryable : σ → (Bool × Option ε) × σ) (k : Nat) (st : σ) :
    stateAfter retryable (k + 1) st = stateAfter retryable k (retryable st).2 := by
  simp [stateAfter, Function.iterate_succ]

theorem retryLoop_always_retry (delay : Duration) (retryable : σ → (Bool × Option ε) × σ)
    (hRetry : ∀ x, (retryable x).1.1 = true) (n : Nat) (st : σ) :
    retryLoop delay retryable (n + 1) st
      = (some (exhaustionError (retryable (stateAfter retryable n st)).1.2),
          List.intersperse (.sleep delay) (List.replicate (n + 1) .attempt),
          stateAfter retryable (n + 1) st) := by
  induction n generalizing st with
  | zero =>
    have h := hRetry st
    rcases hr : retryable st with ⟨⟨b, err⟩, st'⟩
    rw [hr] at h
    simp only at h
    subst h
    simp [retryLoop, hr, stateAfter]
  | succ n ih =>
    have h := hRetry st
    rcases hr : retryable st with ⟨⟨b, err⟩, st'⟩
    rw [hr] at h
    simp only at h
    subst h
    have hst : st' = (retryable st).2 := by rw [hr]
    rw [retryLoop]
    simp only [hr, Nat.add_one_ne_zero, if_false]
    rw [ih st', stateAfter_succ retryable (n + 1) st, stateAfter_succ retryable n st, ← hst]
    simp [List.replicate_succ]

theorem countAttempts_intersperse (delay : Duration) (n : Nat) :
    countAttempts (List.intersperse (.sleep delay) (List.replicate n .attempt)) = n := by
  induction n using Nat.strong_induction_on with
  | _ n ih =>
    match n with
    | 0 => rfl
    | 1 => rfl
    | k + 2 =>
      have hk := ih (k + 1) (by omega)
      simp only [countAttempts, List.replicate_succ, List.intersperse_cons₂] at hk ⊢
      simp [List.filter, hk]

theorem sleptDelays_intersperse (delay : Duration) (n : Nat) :
    sleptDelays (List.intersperse (.sleep delay) (List.replicate n .attempt))
      = List.replicate (n - 1) delay := by
  induction n using Nat.strong_induction_on with
  | _ n ih =>
    match n with
    | 0 => rfl
    | 1 => rfl
    | k + 2 =>
      have hk := ih (k + 1) (by omega)
      simp only [List.replicate_succ, List.intersperse_cons₂, sleptDelays,
        Nat.add_sub_cancel] at hk ⊢
      rw [hk]
      simp [List.replicate_succ]

/-- C8: for every `maxAttempts = N >= 1`, running the strategy with a retryable that always
signals "retry" invokes the retryable exactly `N` times, returns the exhaustion error and
sleeps exactly `N - 1` delays, one between two attempts; the monit readiness strategies
built by `NewProvider` have `N = 10` and a delay of one second. -/
theorem retry_bounds (s : AttemptRetryStrategy) (retryable : σ → (Bool × Option ε) × σ)
    (st : σ) (hN : 1 ≤ s.maxAttempts) (hRetry : ∀ x, (retryable x).1.1 = true)
    (logger : Logger) (dirProvider : DirProvider) (statsCollector : StatsCollector)
    (options : Options) :
    (s.Run retryable st).1
        = some (exhaustionError
            (retryable (stateAfter retryable (s.maxAttempts - 1) st)).1.2)
    ∧ (s.Run retryable st).2.1
        = List.intersperse (.sleep s.delay) (List.replicate s.maxAttempts .attempt)
    ∧ countAttempts (s.Run retryable st).2.1 = s.maxAttempts
    ∧ sleptDelays (s.Run retryable st).2.1 = List.replicate (s.maxAttempts - 1) s.delay
    ∧ (s.Run retryable st).2.2 = stateAfter retryable s.maxAttempts st
    ∧ (NewProvider logger dirProvider statsCollector options).monitRetryStrategies.map
          (fun m => (m.maxAttempts, m.delay))
        = [(10, 1 * Second), (10, 1 * Second)]
    ∧ 1 * Second = 1000000000 * Nanosecond := by
  obtain ⟨n, hn⟩ : ∃ n, s.maxAttempts = n + 1 := ⟨s.maxAttempts - 1, by omega⟩
  have hRun := retryLoop_always_retry s.delay retryable hRetry n st
  have hRun' : s.Run retryable st
      = (some (exhaustionError (retryable (stateAfter retryable n st)).1.2),
          List.intersperse (.sleep s.delay) (List.replicate (n + 1) .attempt),
          stateAfter retryable (n + 1) st) := by
    rw [AttemptRetryStrategy.Run, hn]
    exact hRun
  rw [hRun', hn, Nat.add_sub_cancel]
  refine ⟨rfl, rfl, ?_, ?_, rfl, rfl, rfl⟩
  · exact countAttempts_intersperse s.delay (n + 1)
  · exact sleptDelays_intersperse s.delay (n + 1)

/-- C8 at the monit readiness strategy of `NewProvider` (ten attempts, one second), with a
retryable that counts its invocations and always asks for a retry without an error. -/
theorem retry_bounds_witness :
    countAttempts
        ((⟨10, 1 * Second, ⟨⟨⟨0⟩⟩⟩, ⟨0⟩⟩ : AttemptRetryStrategy).Run
          (fun n : Nat => ((true, (none : Option String)), n + 1)) 0).2.1 = 10
    ∧ sleptDelays
        ((⟨10, 1 * Second, ⟨⟨⟨0⟩⟩⟩, ⟨0⟩⟩ : AttemptRetryStrategy).Run
          (fun n : Nat => ((true, (none : Option String)), n + 1)) 0).2.1
      = List.replicate 9 (1 * Second)
    ∧ ((⟨10, 1 * Second, ⟨⟨⟨0⟩⟩⟩, ⟨0⟩⟩ : AttemptRetryStrategy).Run
          (fun n : Nat => ((true, (none : Option String)), n + 1)) 0).1
      = some .attemptsExhausted :=
  have h := retry_bounds (⟨10, 1 * Second, ⟨⟨⟨0⟩⟩⟩, ⟨0⟩⟩ : AttemptRetryStrategy)
    (fun n : Nat => ((true, (none : Option String)), n + 1)) 0 (by decide)
    (fun _ => rfl) ⟨0⟩ ⟨"/var/vcap/bosh/settings"⟩ ⟨0⟩ ⟨⟨"", false⟩⟩
  ⟨h.2.2.1, h.2.2.2.1, h.1⟩

end Retry

/-! ## Swap sizing -/

section SwapSizing

theorem swapSizingPolicy_sum (D M : Nat) :
    (swapSizingPolicy D M).1 + (swapSizingPolicy D M).2 = D := by
  simp only [swapSizingPolicy]
  split <;> omega

theorem calculate_eq_ok (w : World) (devicePath : String) (D : Nat)
    (hErr : (w.run ["sfdisk", "-s", devicePath]).err = none)
    (hParse : parseBlockCount (w.run ["sfdisk", "-s", devicePath]).stdout = some D) :
    calculateEphemeralDiskPartitionSizes w devicePath
      = .ok (swapSizingPolicy D w.totalMemInBlocks) := by
  simp only [calculateEphemeralDiskPartitionSizes, hErr, hParse]

/-- C4: swap-sizing policy of `calculateEphemeralDiskPartitionSizes`: for every disk size
`D > 0` read from the size probe and memory size `M > 0`, both in blocks, the call
succeeds; if `D > 2*M` the swap size is `M` and the data size is `D - M`; if `D <= 2*M`
the swap size is `D / 2` and the data size is `D - swap`; in both branches
`swap + data = D`. -/
theorem swap_sizing_policy (w : World) (devicePath : String) (D : Nat)
    (hErr : (w.run ["sfdisk", "-s", devicePath]).err = none)
    (hParse : parseBlockCount (w.run ["sfdisk", "-s", devicePath]).stdout = some D)
    (_hD : 0 < D) (_hM : 0 < w.totalMemInBlocks) :
    ∃ swapSize linuxSize,
      calculateEphemeralDiskPartitionSizes w devicePath = .ok (swapSize, linuxSize)
      ∧ (D > 2 * w.totalMemInBlocks →
          swapSize = w.totalMemInBlocks ∧ linuxSize = D - w.totalMemInBlocks)
      ∧ (D ≤ 2 * w.totalMemInBlocks → swapSize = D / 2 ∧ linuxSize = D - swapSize)
      ∧ swapSize + linuxSize = D := by
  refine ⟨_, _, calculate_eq_ok w devicePath D hErr hParse, ?_, ?_, ?_⟩
  · intro h
    simp [swapSizingPolicy, h]
  · intro h
    have h' : ¬ D > 2 * w.totalMemInBlocks := by omega
    simp [swapSizingPolicy, h']
  · exact swapSizingPolicy_sum D w.totalMemInBlocks

/-- C4 at a disk of 2,000,000 blocks and a memory of 600,000 blocks. -/
theorem swap_sizing_policy_witness :
    ∃ swapSize linuxSize,
      calculateEphemeralDiskPartitionSizes (fakeWorld "/dev/hda" "2000000" 600000) "/dev/hda"
        = .ok (swapSize, linuxSize)
      ∧ (2000000 > 2 * 600000 → swapSize = 600000 ∧ linuxSize = 2000000 - 600000)
      ∧ (2000000 ≤ 2 * 600000 → swapSize = 2000000 / 2 ∧ linuxSize = 2000000 - swapSize)
      ∧ swapSize + linuxSize = 2000000 :=
  swap_sizing_policy (fakeWorld "/dev/hda" "2000000" 600000) "/dev/hda" 2000000 rfl
    (by decide) (by decide) (by decide)

/-- C5, as stated, fails: with a disk of one block and a memory of one block the policy
halves the disk, the swap size is `1 / 2 = 0`, and the plan is `(0, 1)`. -/
theorem partition_plan_positive_counterexample :
    ¬ (∀ (w : World) (devicePath : String) (D : Nat),
        (w.run ["sfdisk", "-s", devicePath]).err = none →
        parseBlockCount (w.run ["sfdisk", "-s", devicePath]).stdout = some D →
        0 < D → 0 < w.totalMemInBlocks →
        ∃ swapSize linuxSize,
          calculateEphemeralDiskPartitionSizes w devicePath = .ok (swapSize, linuxSize)
          ∧ swapSize + linuxSize ≤ D ∧ 0 < swapSize ∧ 0 < linuxSize) := by
  intro h
  obtain ⟨swapSize, linuxSize, hCalc, _, hSwap, _⟩ :=
    h (fakeWorld "/dev/hda" "1" 1) "/dev/hda" 1 rfl (by decide) (by decide) (by decide)
  have hEval : calculateEphemeralDiskPartitionSizes (fakeWorld "/dev/hda" "1" 1) "/dev/hda"
      = .ok (0, 1) := by rfl
  rw [hEval] at hCalc
  injection hCalc with hPair
  injection hPair with h0 _
  omega

/-- C5, amended: for every disk size `D > 0` read from the size probe and every memory size
`M > 0`, the plan has sum of sizes at most `D` (equal to `D`), a data size greater than 0,
and a swap size greater than 0 exactly when `D >= 2`. -/
theorem partition_plan_invariant (w : World) (devicePath : String) (D : Nat)
    (hErr : (w.run ["sfdisk", "-s", devicePath]).err = none)
    (hParse : parseBlockCount (w.run ["sfdisk", "-s", devicePath]).stdout = some D)
    (hD : 0 < D) (hM : 0 < w.totalMemInBlocks) :
    ∃ swapSize linuxSize,
      calculateEphemeralDiskPartitionSizes w devicePath = .ok (swapSize, linuxSize)
      ∧ swapSize + linuxSize ≤ D
      ∧ 0 < linuxSize
      ∧ (0 < swapSize ↔ 2 ≤ D) := by
  refine ⟨_, _, calculate_eq_ok w devicePath D hErr hParse, ?_, ?_, ?_⟩
  · exact le_of_eq (swapSizingPolicy_sum D w.totalMemInBlocks)
  · show 0 < (swapSizingPolicy D w.totalMemInBlocks).2
    simp only [swapSizingPolicy]
    split <;> omega
  · show 0 < (swapSizingPolicy D w.totalMemInBlocks).1 ↔ 2 ≤ D
    simp only [swapSizingPolicy]
    split <;> omega

/-- C5, amended, at a disk of three blocks and a memory of two blocks: the plan is
`(1, 2)`. -/
theorem partition_plan_invariant_witness :
    ∃ swapSize linuxSize,
      calculateEphemeralDiskPartitionSizes (fakeWorld "/dev/hda" "3" 2) "/dev/hda"
        = .ok (swapSize, linuxSize)
      ∧ swapSize + linuxSize ≤ 3
      ∧ 0 < linuxSize
      ∧ (0 < swapSize ↔ 2 ≤ 3) :=
  partition_plan_invariant (fakeWorld "/dev/hda" "3" 2) "/dev/hda" 3 rfl
    (by decide) (by decide) (by decide)

end SwapSizing

/-! ## Device path resolution -/

section Resolution

theorem pollDevice_of_found (candidates : List String) (fileExists : Nat → String → Bool)
    (remaining : Nat) (realPath : String)
    (h : findPossibleDevice candidates (fileExists 0) = some realPath) :
    pollDevice candidates fileExists remaining 0 = some realPath := by
  cases remaining <;> simp [pollDevice, h]

theorem findPossibleDevice_congr (candidates : List String) (f g : String → Bool)
    (h : ∀ q, g q = f q) : findPossibleDevice candidates g = findPossibleDevice candidates f := by
  have hfg : g = f := funext h
  rw [hfg]

/-- C10: for every state of the device namespace in which several candidate nodes of the
same reference exist at once, `getRealDevicePath` returns without error the first
candidate, in the fixed candidate order, that exists, and every resolution against the same
state returns the same path. -/
theorem getRealDevicePath_stable (cfg : ResolverConfig) (fileExists : Nat → String → Bool)
    (ref c₁ c₂ : String)
    (h₁ : c₁ ∈ cfg.candidates ref) (_h₂ : c₂ ∈ cfg.candidates ref) (_hne : c₁ ≠ c₂)
    (he₁ : fileExists 0 c₁ = true) (_he₂ : fileExists 0 c₂ = true) :
    ∃ realPath front back,
      cfg.candidates ref = front ++ realPath :: back
      ∧ (∀ q ∈ front, fileExists 0 q = false)
      ∧ fileExists 0 realPath = true
      ∧ getRealDevicePath cfg fileExists ref = .ok realPath
      ∧ ∀ (fileExists' : Nat → String → Bool) (maxPolls' : Nat),
          (∀ q, fileExists' 0 q = fileExists 0 q) →
          getRealDevicePath ⟨cfg.candidates, maxPolls'⟩ fileExists' ref = .ok realPath := by
  cases hFind : findPossibleDevice (cfg.candidates ref) (fileExists 0) with
  | none =>
    exfalso
    simp only [findPossibleDevice, List.find?_eq_none] at hFind
    exact hFind c₁ h₁ he₁
  | some realPath =>
    have hSplit := hFind
    simp only [findPossibleDevice, List.find?_eq_some] at hSplit
    obtain ⟨hExists, front, back, hCands, hFront⟩ := hSplit
    refine ⟨realPath, front, back, hCands, ?_, hExists, ?_, ?_⟩
    · intro q hq
      simpa using hFront q hq
    · simp only [getRealDevicePath, pollDevice_of_found _ _ _ _ hFind]
    · intro fileExists' maxPolls' hSame
      have hFind' : findPossibleDevice (cfg.candidates ref) (fileExists' 0) = some realPath := by
        rw [findPossibleDevice_congr _ _ _ hSame]
        exact hFind
      simp only [getRealDevicePath, pollDevice_of_found _ _ _ _ hFind']

/-- C10 at the state of `TestUbuntuGetRealDevicePathWithMultiplePossibleDevices`: both
`/dev/xvda` and `/dev/vda` exist and the reference `/dev/sda` resolves to `/dev/xvda`. -/
theorem getRealDevicePath_stable_witness :
    getRealDevicePath testResolverConfig
        (fun _ path => path == "/dev/xvda" || path == "/dev/vda") "/dev/sda"
      = .ok "/dev/xvda"
    ∧ ∃ realPath front back,
      testResolverConfig.candidates "/dev/sda" = front ++ realPath :: back
      ∧ (∀ q ∈ front, (fun (_ : Nat) path => path == "/dev/xvda" || path == "/dev/vda") 0 q
          = false)
      ∧ (fun (_ : Nat) path => path == "/dev/xvda" || path == "/dev/vda") 0 realPath = true
      ∧ getRealDevicePath testResolverConfig
          (fun _ path => path == "/dev/xvda" || path == "/dev/vda") "/dev/sda" = .ok realPath
      ∧ ∀ (fileExists' : Nat → String → Bool) (maxPolls' : Nat),
          (∀ q, fileExists' 0 q
            = (fun (_ : Nat) path => path == "/dev/xvda" || path == "/dev/vda") 0 q) →
          getRealDevicePath ⟨testResolverConfig.candidates, maxPolls'⟩ fileExists' "/dev/sda"
            = .ok realPath :=
  ⟨rfl, getRealDevicePath_stable testResolverConfig
    (fun _ path => path == "/dev/xvda" || path == "/dev/vda") "/dev/sda" "/dev/xvda"
    "/dev/vda" (by decide) (by decide) (by decide) rfl rfl⟩

end Resolution

/-! ## Ephemeral disk setup -/

section Setup

/-- C9: on a successful `SetupEphemeralDiskWithPath` for a disk that is not yet mounted,
the partitioner is asked once, for exactly two partitions on the resolved real device
path, in the order (swap, linux) and with the sizes of the swap-sizing policy, and the
commands issued are exactly, in this order: size probe of the device, `mkswap` on
partition 1, ext4 format of partition 2, `swapon` on partition 1, mount of partition 2 at
the mount point; for 2,000,000 blocks of disk and 600,000 blocks of memory the sizes are
600,000 and 1,400,000. -/
theorem setup_command_sequence (cfg : ResolverConfig) (w : World) (ref mountPoint : String)
    (hOk : (SetupEphemeralDiskWithPath cfg w ref mountPoint).1 = none)
    (hNotMounted : ∀ realPath, getRealDevicePath cfg w.fileExists ref = .ok realPath →
      w.isMounted (realPath ++ "2") mountPoint = false) :
    ∃ realPath D,
      getRealDevicePath cfg w.fileExists ref = .ok realPath
      ∧ parseBlockCount (w.run ["sfdisk", "-s", realPath]).stdout = some D
      ∧ (SetupEphemeralDiskWithPath cfg w ref mountPoint).2.partitionCalls
          = [(realPath,
              [⟨"swap", (swapSizingPolicy D w.totalMemInBlocks).1⟩,
               ⟨"linux", (swapSizingPolicy D w.totalMemInBlocks).2⟩])]
      ∧ (SetupEphemeralDiskWithPath cfg w ref mountPoint).2.runCommands
          = [["sfdisk", "-s", realPath],
             ["mkswap", realPath ++ "1"],
             ["mke2fs", "-t", "ext4", "-j", realPath ++ "2"],
             ["swapon", realPath ++ "1"],
             ["mount", realPath ++ "2", mountPoint]]
      ∧ (D = 2000000 → w.totalMemInBlocks = 600000 →
          (SetupEphemeralDiskWithPath cfg w ref mountPoint).2.partitionCalls
            = [(realPath, [⟨"swap", 600000⟩, ⟨"linux", 1400000⟩])]) := by
  cases hRes : getRealDevicePath cfg w.fileExists ref with
  | error e =>
    simp [SetupEphemeralDiskWithPath, hRes] at hOk
  | ok realPath =>
    have hNM := hNotMounted realPath hRes
    cases hErr : (w.run ["sfdisk", "-s", realPath]).err with
    | some e =>
      simp [SetupEphemeralDiskWithPath, hRes, calculateEphemeralDiskPartitionSizes, hErr] at hOk
    | none =>
      cases hParse : parseBlockCount (w.run ["sfdisk", "-s", realPath]).stdout with
      | none =>
        simp [SetupEphemeralDiskWithPath, hRes, calculateEphemeralDiskPartitionSizes, hErr,
          hParse] at hOk
      | some D =>
        have hCalc := calculate_eq_ok w realPath D hErr hParse
        refine ⟨realPath, D, rfl, hParse, ?_⟩
        simp only [SetupEphemeralDiskWithPath, hRes, hCalc, hNM, Bool.false_eq_true,
          if_false] at hOk ⊢
        cases h1 : w.partition realPath
            (partitionPlan (swapSizingPolicy D w.totalMemInBlocks)) with
        | some e => simp [h1] at hOk
        | none =>
          cases h2 : (w.run ["mkswap", realPath ++ "1"]).err with
          | some e => simp [h1, h2] at hOk
          | none =>
            cases h3 : (w.run ["mke2fs", "-t", "ext4", "-j", realPath ++ "2"]).err with
            | some e => simp [h1, h2, h3] at hOk
            | none =>
              cases h4 : (w.run ["swapon", realPath ++ "1"]).err with
              | some e => simp [h1, h2, h3, h4] at hOk
              | none =>
                cases h5 : w.mkdirAll mountPoint dirMode with
                | some e => simp [h1, h2, h3, h4, h5] at hOk
                | none =>
                  cases h6 : (w.run ["mount", realPath ++ "2", mountPoint]).err with
                  | some e => simp [h1, h2, h3, h4, h5, h6] at hOk
                  | none =>
                    cases h7 : w.mkdirAll (mountPoint ++ "/sys/log") dirMode with
                    | some e => simp [h1, h2, h3, h4, h5, h6, h7] at hOk
                    | none =>
                      cases h8 : w.mkdirAll (mountPoint ++ "/sys/run") dirMode with
                      | some e => simp [h1, h2, h3, h4, h5, h6, h7, h8] at hOk
                      | none =>
                        refine ⟨rfl, rfl, ?_⟩
                        intro hD hM
                        rw [hD, hM]
                        rfl

/-- C9 at the world of `TestUbuntuSetupEphemeralDiskWithPath`, with a disk of 2,000,000
blocks and a memory of 600,000 blocks: the setup of `/dev/sda` at `/data-dir` succeeds on
the real device `/dev/xvda`. -/
theorem setup_command_sequence_witness :
    SetupEphemeralDiskWithPath testResolverConfig (fakeWorld "/dev/xvda" "2000000" 600000)
        "/dev/sda" "/data-dir"
      = (none,
          ⟨[["sfdisk", "-s", "/dev/xvda"],
            ["mkswap", "/dev/xvda1"],
            ["mke2fs", "-t", "ext4", "-j", "/dev/xvda2"],
            ["swapon", "/dev/xvda1"],
            ["mount", "/dev/xvda2", "/data-dir"]],
           [("/dev/xvda", [⟨"swap", 600000⟩, ⟨"linux", 1400000⟩])],
           [("/data-dir", 0o750), ("/data-dir/sys/log", 0o750),
            ("/data-dir/sys/run", 0o750)]⟩)
    ∧ ∃ realPath D,
      getRealDevicePath testResolverConfig
          (fakeWorld "/dev/xvda" "2000000" 600000).fileExists "/dev/sda" = .ok realPath
      ∧ parseBlockCount
          ((fakeWorld "/dev/xvda" "2000000" 600000).run ["sfdisk", "-s", realPath]).stdout
          = some D
      ∧ (SetupEphemeralDiskWithPath testResolverConfig
            (fakeWorld "/dev/xvda" "2000000" 600000) "/dev/sda" "/data-dir").2.partitionCalls
          = [(realPath,
              [⟨"swap", (swapSizingPolicy D
                  (fakeWorld "/dev/xvda" "2000000" 600000).totalMemInBlocks).1⟩,
               ⟨"linux", (swapSizingPolicy D
                  (fakeWorld "/dev/xvda" "2000000" 600000).totalMemInBlocks).2⟩])]
      ∧ (SetupEphemeralDiskWithPath testResolverConfig
            (fakeWorld "/dev/xvda" "2000000" 600000) "/dev/sda" "/data-dir").2.runCommands
          = [["sfdisk", "-s", realPath],
             ["mkswap", realPath ++ "1"],
             ["mke2fs", "-t", "ext4", "-j", realPath ++ "2"],
             ["swapon", realPath ++ "1"],
             ["mount", realPath ++ "2", "/data-dir"]]
      ∧ (D = 2000000 →
          (fakeWorld "/dev/xvda" "2000000" 600000).totalMemInBlocks = 600000 →
          (SetupEphemeralDiskWithPath testResolverConfig
              (fakeWorld "/dev/xvda" "2000000" 600000) "/dev/sda" "/data-dir").2.partitionCalls
            = [(realPath, [⟨"swap", 600000⟩, ⟨"linux", 1400000⟩])]) :=
  ⟨by decide,
    setup_command_sequence testResolverConfig (fakeWorld "/dev/xvda" "2000000" 600000)
      "/dev/sda" "/data-dir" (by decide) (fun _ _ => rfl)⟩

end Setup

end Platform
